import Mathlib

/- Verification development for the weather-ukraine MCP server (src/index.ts).
   The constants, the geocoder result extraction, the pure forecast formatter
   and the get_forecast tool handler are embedded shallowly.  JavaScript
   numbers are modelled as rationals; the two network calls (geocoding fetch,
   forecast fetch) are modelled as oracle inputs of the handler, and the
   handler result records which calls were made and with which query. -/

namespace WeatherUkraine

/-- Decimal digit character for a digit value (helper for rendering numbers). -/
def digitChar (n : Nat) : Char :=
  if n = 0 then '0' else if n = 1 then '1' else if n = 2 then '2'
  else if n = 3 then '3' else if n = 4 then '4' else if n = 5 then '5'
  else if n = 6 then '6' else if n = 7 then '7' else if n = 8 then '8' else '9'

/-- Fuel-driven decimal digits of `n` (most significant first); any fuel `≥ n`
gives the digits of `n`.  Structural recursion on the fuel keeps the function
kernel-reducible. -/
def natDigitsRec (fuel n : Nat) : List Char :=
  match fuel, n with
  | 0, _ => []
  | _ + 1, 0 => []
  | fuel + 1, n + 1 => natDigitsRec fuel ((n + 1) / 10) ++ [digitChar ((n + 1) % 10)]

/-- Decimal rendering of a natural number. -/
def natRepr (n : Nat) : String :=
  if n = 0 then "0" else String.mk (natDigitsRec n n)

/-- Rendering of a JavaScript number value (modelled as a rational): sign and
integer digits, plus the denominator when the value is not an integer.  This
stands in for JavaScript template interpolation of a number; the claims only
need it to be a fixed newline-free rendering of the value. -/
def jsNumStr (q : ℚ) : String :=
  (if q.num < 0 then "-" else "")
    ++ natRepr q.num.natAbs
    ++ (if q.den = 1 then "" else "/" ++ natRepr q.den)

/-- Zero-pad the decimal rendering of `m` to four digits. -/
def pad4 (m : Nat) : String :=
  String.mk (List.replicate (4 - (natRepr m).data.length) '0') ++ natRepr m

/-- Model of JavaScript `x.toFixed(4)`: the magnitude scaled by 10000 and
rounded to the nearest integer (halves away from zero), printed as integer
part, a dot, and a four-digit fractional part, with a sign for negatives. -/
def toFixed4 (q : ℚ) : String :=
  let scaled : Nat := (q.num.natAbs * 10000 * 2 + q.den) / (2 * q.den)
  (if q.num < 0 then "-" else "")
    ++ natRepr (scaled / 10000) ++ "." ++ pad4 (scaled % 10000)

/- Defaults for Ukraine (Kyiv), src/index.ts lines 10-13. -/

def DEFAULT_LATITUDE : ℚ := 50.4501

def DEFAULT_LONGITUDE : ℚ := 30.5234

def DEFAULT_TIMEZONE : String := "Europe/Kyiv"

def DEFAULT_LANGUAGE : String := "uk"

/- Ukrainian translations used in responses, src/index.ts lines 16-24. -/

namespace T

def forecastFor : String := "Прогноз для"

def temperature : String := "Температура"

def wind : String := "Вітер"

def noData : String := "Дані недоступні"

def failed : String := "Не вдалося отримати дані"

def current : String := "Поточні умови"

def noAlerts : String := "Поточні попередження відсутні або не доступні через конфігурацію сервера"

end T

/-- One entry of the geocoding response `results` array (src/index.ts 49-51). -/
structure GeoEntry where
  latitude : ℚ
  longitude : ℚ
  name : String
  country : String
  deriving DecidableEq

/-- The geocoding response body (`results` is optional). -/
structure GeocodingResult where
  results : Option (List GeoEntry)
  deriving DecidableEq

/-- The value `geocodeCity` resolves to on success (src/index.ts 53-59). -/
structure GeoHit where
  latitude : ℚ
  longitude : ℚ
  name : Option String
  deriving DecidableEq

/-- Result extraction of `geocodeCity` (src/index.ts 53-59): the fetched JSON
is an oracle input (`none` models a failed `makeRequest`); the first entry of
`results`, when present, yields the hit. -/
def geocodeCity (fetched : Option GeocodingResult) : Option GeoHit :=
  match fetched with
  | none => none
  | some data =>
    match data.results with
    | none => none
    | some l =>
      match l.head? with
      | none => none
      | some first => some { latitude := first.latitude, longitude := first.longitude, name := some first.name }

/-- `current_weather` section of the forecast payload (src/index.ts 67-73). -/
structure CurrentWeather where
  temperature : ℚ
  windspeed : ℚ
  winddirection : ℚ
  weathercode : ℚ
  time : String
  deriving DecidableEq

/-- `daily` section of the forecast payload: the four parallel arrays read by
the formatter (src/index.ts 93-96), each possibly absent. -/
structure Daily where
  time : Option (List String)
  temperature_2m_max : Option (List ℚ)
  temperature_2m_min : Option (List ℚ)
  precipitation_sum : Option (List ℚ)
  deriving DecidableEq

/-- The forecast payload (src/index.ts 61-75). -/
structure OpenMeteoForecast where
  latitude : ℚ
  longitude : ℚ
  current_weather : Option CurrentWeather
  daily : Option Daily
  deriving DecidableEq

/-- JavaScript truthiness of an optional number: `undefined`, and the number
`0`, are falsy. -/
def truthyNum : Option ℚ → Bool
  | none => false
  | some q => decide (q ≠ 0)

/-- JavaScript truthiness of an optional string: `undefined`, and the empty
string, are falsy. -/
def truthyStr : Option String → Bool
  | none => false
  | some s => decide (s ≠ "")

/-- JavaScript indexing `l[i]` interpolated into a template: out-of-range
indexing yields `undefined`. -/
def jsIdxS (l : List String) (i : Nat) : String :=
  (l.get? i).getD "undefined"

/-- JavaScript indexing `l[i]` for a numeric array interpolated into a
template: out-of-range indexing yields `undefined`. -/
def jsIdxQ (l : List ℚ) (i : Nat) : String :=
  match l.get? i with
  | some q => jsNumStr q
  | none => "undefined"

/-- The `loc` binding of `formatForecastText` (src/index.ts 78): display name
with 4-decimal coordinates in parentheses when the name is truthy, bare
4-decimal coordinates otherwise. -/
def locOf (lat lon : ℚ) (placeName : Option String) : String :=
  if truthyStr placeName then
    placeName.getD "" ++ " (" ++ toFixed4 lat ++ ", " ++ toFixed4 lon ++ ")"
  else
    toFixed4 lat ++ ", " ++ toFixed4 lon

/-- One rendered line of the daily summary (src/index.ts 100). -/
def dailyLine (dates : List String) (minTemps maxTemps precip : List ℚ) (i : Nat) : String :=
  jsIdxS dates i ++ " — " ++ T.temperature ++ ": " ++ jsIdxQ minTemps i ++ "…"
    ++ jsIdxQ maxTemps i ++ " °C, опади: " ++ jsIdxQ precip i ++ " мм"

/-- `lines.join("\n")`: join with a single newline between consecutive
elements. -/
def joinLines : List String → String
  | [] => ""
  | [a] => a
  | a :: b :: rest => a ++ "\n" ++ joinLines (b :: rest)

/-- `formatForecastText` (src/index.ts 77-106), with the pushed lines built as
one list and joined on newlines. -/
def formatForecastText (lat lon : ℚ) (data : OpenMeteoForecast) (placeName : Option String) : String :=
  joinLines
    ([T.forecastFor ++ " " ++ locOf lat lon placeName]
      ++ (match data.current_weather with
          | some cur =>
            ["\n" ++ T.current ++ ":",
             T.temperature ++ ": " ++ jsNumStr cur.temperature ++ " °C",
             T.wind ++ ": " ++ jsNumStr cur.windspeed ++ " km/h (" ++ jsNumStr cur.winddirection ++ "°)",
             "Час: " ++ cur.time]
          | none => [T.noData])
      ++ (match data.daily with
          | some d =>
            if 0 < (d.time.getD []).length then
              "\nДенний прогноз:"
                :: (List.range (min (d.time.getD []).length 7)).map
                    (dailyLine (d.time.getD []) (d.temperature_2m_min.getD [])
                      (d.temperature_2m_max.getD []) (d.precipitation_sum.getD []))
            else []
          | none => []))

/-- The tool arguments after zod validation (src/index.ts 112-118): all three
optional. -/
structure Args where
  city : Option String
  latitude : Option ℚ
  longitude : Option ℚ
  deriving DecidableEq

/-- The `URLSearchParams` of the forecast request (src/index.ts 140-148). -/
structure ForecastQuery where
  latitude : ℚ
  longitude : ℚ
  current_weather : String
  daily : String
  timezone : String
  temperature_unit : String
  windspeed_unit : String
  deriving DecidableEq

/-- Build the forecast query for resolved coordinates (src/index.ts 140-148). -/
def mkForecastQuery (lat lon : ℚ) : ForecastQuery :=
  { latitude := lat
    longitude := lon
    current_weather := "true"
    daily := "temperature_2m_max,temperature_2m_min,precipitation_sum"
    timezone := DEFAULT_TIMEZONE
    temperature_unit := "celsius"
    windspeed_unit := "kmh" }

/-- The MCP tool response: a single text content item; the `isError` flag is
never set by the source, so it is `false` at every construction site. -/
structure ToolResponse where
  text : String
  isError : Bool
  deriving DecidableEq

/-- Handler result together with a log of the effects: whether the geocoder
was consulted, and the forecast query when the forecast fetch was performed
(`none` means the forecast fetcher was never invoked). -/
structure HandlerResult where
  response : ToolResponse
  geocoderCalled : Bool
  forecastQuery : Option ForecastQuery
  deriving DecidableEq

/-- The tail of the handler after coordinate resolution (src/index.ts
139-157): build the query, consult the forecast fetch oracle, and either
report the generic failure or format the forecast. -/
def finishForecast (lat lon : ℚ) (placeName : Option String) (geocoderCalled : Bool)
    (forecastFetch : Option OpenMeteoForecast) : HandlerResult :=
  match forecastFetch with
  | none =>
    { response := { text := T.failed ++ ": помилка при отриманні даних", isError := false }
      geocoderCalled := geocoderCalled
      forecastQuery := some (mkForecastQuery lat lon) }
  | some data =>
    { response := { text := formatForecastText lat lon data placeName, isError := false }
      geocoderCalled := geocoderCalled
      forecastQuery := some (mkForecastQuery lat lon) }

/-- The get_forecast tool handler (src/index.ts 117-158).  `geoFetch` is the
oracle for the geocoding fetch (consulted only on the city branch) and
`forecastFetch` the oracle for the forecast fetch. -/
def getForecastHandler (args : Args) (geoFetch : Option GeocodingResult)
    (forecastFetch : Option OpenMeteoForecast) : HandlerResult :=
  if !truthyNum args.latitude || !truthyNum args.longitude then
    if truthyStr args.city then
      match geocodeCity geoFetch with
      | none =>
        { response :=
            { text := T.failed ++ ": не знайдено місто \x27" ++ args.city.getD "" ++ "\x27"
              isError := false }
          geocoderCalled := true
          forecastQuery := none }
      | some geo => finishForecast geo.latitude geo.longitude geo.name true forecastFetch
    else
      finishForecast DEFAULT_LATITUDE DEFAULT_LONGITUDE (some "Kyiv") false forecastFetch
  else
    finishForecast (args.latitude.getD 0) (args.longitude.getD 0) none false forecastFetch

/-- Split a string on newline characters; the line list the formatter claims
are stated about. -/
def linesOf (s : String) : List String :=
  (s.data.splitOn '\n').map String.mk

/- Flat line-level characterization of the formatter: the two pushed strings
that begin with an embedded newline each split into a blank line followed by
the sub-header, so the rendered text is the newline-join of the lists below. -/

/-- Header line of the formatter output. -/
def headerLine (lat lon : ℚ) (placeName : Option String) : String :=
  T.forecastFor ++ " " ++ locOf lat lon placeName

/-- The current-conditions section as individual lines: a blank spacer, the
sub-header and three data lines when present, the single no-data line
otherwise. -/
def currentFlat : Option CurrentWeather → List String
  | some cur =>
    ["", T.current ++ ":",
     T.temperature ++ ": " ++ jsNumStr cur.temperature ++ " °C",
     T.wind ++ ": " ++ jsNumStr cur.windspeed ++ " km/h (" ++ jsNumStr cur.winddirection ++ "°)",
     "Час: " ++ cur.time]
  | none => [T.noData]

/-- The rendered daily lines: one line per day, truncated to 7. -/
def dailyRendered (d : Daily) : List String :=
  (List.range (min (d.time.getD []).length 7)).map
    (dailyLine (d.time.getD []) (d.temperature_2m_min.getD [])
      (d.temperature_2m_max.getD []) (d.precipitation_sum.getD []))

/-- The daily section as individual lines: a blank spacer, the sub-header and
the daily lines when a non-empty date series is present, nothing otherwise. -/
def dailyFlat : Option Daily → List String
  | some d =>
    if 0 < (d.time.getD []).length then
      "" :: "Денний прогноз:" :: dailyRendered d
    else []
  | none => []

theorem joinLines_cons_of_ne_nil (a : String) (l : List String) (h : l ≠ []) :
    joinLines (a :: l) = a ++ "\n" ++ joinLines l := by
  cases l with
  | nil => exact absurd rfl h
  | cons b rest => rfl

theorem joinLines_nl_entry (b : String) (rest : List String) :
    joinLines (("\n" ++ b) :: rest) = joinLines ("" :: b :: rest) := by
  cases rest with
  | nil =>
    apply String.ext
    simp [joinLines, String.data_append]
  | cons c cs =>
    apply String.ext
    simp [joinLines, String.data_append]

theorem joinLines_flatten_nl (pre : List String) (b : String) (rest : List String) :
    joinLines (pre ++ ("\n" ++ b) :: rest) = joinLines (pre ++ "" :: b :: rest) := by
  induction pre with
  | nil => simpa using joinLines_nl_entry b rest
  | cons a pre ih =>
    have h₁ : pre ++ ("\n" ++ b) :: rest ≠ [] := by simp
    have h₂ : pre ++ "" :: b :: rest ≠ [] := by simp
    rw [List.cons_append, List.cons_append,
      joinLines_cons_of_ne_nil a _ h₁, joinLines_cons_of_ne_nil a _ h₂, ih]

/-- The formatter output is the newline-join of the flat line lists. -/
theorem formatForecastText_flat (lat lon : ℚ) (data : OpenMeteoForecast) (placeName : Option String) :
    formatForecastText lat lon data placeName =
      joinLines (headerLine lat lon placeName ::
        (currentFlat data.current_weather ++ dailyFlat data.daily)) := by
  have hca : ("\n" ++ T.current) ++ ":" = "\n" ++ (T.current ++ ":") := String.append_assoc _ _ _
  have hdl : ("\nДенний прогноз:" : String) = "\n" ++ "Денний прогноз:" := rfl
  unfold formatForecastText currentFlat dailyFlat headerLine
  cases hc : data.current_weather with
  | some cur =>
    cases hd : data.daily with
    | some d =>
      by_cases hlen : 0 < (d.time.getD []).length
      · simp only [hlen, if_pos, dailyRendered]
        have s1 := joinLines_flatten_nl [T.forecastFor ++ " " ++ locOf lat lon placeName]
          (T.current ++ ":")
          ([T.temperature ++ ": " ++ jsNumStr cur.temperature ++ " °C",
            T.wind ++ ": " ++ jsNumStr cur.windspeed ++ " km/h (" ++ jsNumStr cur.winddirection ++ "°)",
            "Час: " ++ cur.time] ++
            ("\nДенний прогноз:"
              :: (List.range (min (d.time.getD []).length 7)).map
                  (dailyLine (d.time.getD []) (d.temperature_2m_min.getD [])
                    (d.temperature_2m_max.getD []) (d.precipitation_sum.getD []))))
        have s2 := joinLines_flatten_nl
          [T.forecastFor ++ " " ++ locOf lat lon placeName, "", T.current ++ ":",
            T.temperature ++ ": " ++ jsNumStr cur.temperature ++ " °C",
            T.wind ++ ": " ++ jsNumStr cur.windspeed ++ " km/h (" ++ jsNumStr cur.winddirection ++ "°)",
            "Час: " ++ cur.time]
          "Денний прогноз:"
          ((List.range (min (d.time.getD []).length 7)).map
            (dailyLine (d.time.getD []) (d.temperature_2m_min.getD [])
              (d.temperature_2m_max.getD []) (d.precipitation_sum.getD [])))
        simp only [List.cons_append, List.nil_append] at s1 s2 ⊢
        rw [hca, s1, hdl, s2]
      · simp only [hlen, if_neg, dailyRendered]
        have s1 := joinLines_flatten_nl [T.forecastFor ++ " " ++ locOf lat lon placeName]
          (T.current ++ ":")
          [T.temperature ++ ": " ++ jsNumStr cur.temperature ++ " °C",
            T.wind ++ ": " ++ jsNumStr cur.windspeed ++ " km/h (" ++ jsNumStr cur.winddirection ++ "°)",
            "Час: " ++ cur.time]
        simp only [List.cons_append, List.nil_append] at s1 ⊢
        rw [hca]
        simpa using s1
    | none =>
      have s1 := joinLines_flatten_nl [T.forecastFor ++ " " ++ locOf lat lon placeName]
        (T.current ++ ":")
        [T.temperature ++ ": " ++ jsNumStr cur.temperature ++ " °C",
          T.wind ++ ": " ++ jsNumStr cur.windspeed ++ " km/h (" ++ jsNumStr cur.winddirection ++ "°)",
          "Час: " ++ cur.time]
      simp only [List.cons_append, List.nil_append] at s1 ⊢
      rw [hca]
      simpa using s1
  | none =>
    cases hd : data.daily with
    | some d =>
      by_cases hlen : 0 < (d.time.getD []).length
      · simp only [hlen, if_pos, dailyRendered]
        have s2 := joinLines_flatten_nl
          [T.forecastFor ++ " " ++ locOf lat lon placeName, T.noData]
          "Денний прогноз:"
          ((List.range (min (d.time.getD []).length 7)).map
            (dailyLine (d.time.getD []) (d.temperature_2m_min.getD [])
              (d.temperature_2m_max.getD []) (d.precipitation_sum.getD [])))
        simp only [List.cons_append, List.nil_append] at s2 ⊢
        rw [hdl, s2]
      · simp [hlen]
    | none => simp

theorem joinLines_cons₂ (a b : String) (rest : List String) :
    joinLines (a :: b :: rest) = a ++ "\n" ++ joinLines (b :: rest) := rfl

theorem linesOf_single (a : String) (h : '\n' ∉ a.data) : linesOf a = [a] := by
  unfold linesOf List.splitOn
  rw [List.splitOnP_eq_single _ _ (fun x hx hb => h (by
    rw [show x = '\n' from by simpa using hb] at hx
    exact hx))]
  simp

/-- Splitting the newline-join of newline-free lines recovers the lines. -/
theorem linesOf_joinLines (parts : List String) (hne : parts ≠ [])
    (h : ∀ p ∈ parts, '\n' ∉ p.data) : linesOf (joinLines parts) = parts := by
  induction parts with
  | nil => exact absurd rfl hne
  | cons a rest ih =>
    cases rest with
    | nil => exact linesOf_single a (h a (List.mem_cons_self a []))
    | cons b rs =>
      have ha := h a (List.mem_cons_self a (b :: rs))
      have hdata : (joinLines (a :: b :: rs)).data
          = a.data ++ '\n' :: (joinLines (b :: rs)).data := by
        rw [joinLines_cons₂, String.data_append, String.data_append]
        simp
      unfold linesOf List.splitOn
      rw [hdata, List.splitOnP_first _ _ (fun x hx hb => ha (by
        rw [show x = '\n' from by simpa using hb] at hx
        exact hx)) '\n' (by simp) _]
      have ihh := ih (by simp) (fun p hp => h p (List.mem_cons_of_mem a hp))
      unfold linesOf List.splitOn at ihh
      simp only [List.map_cons, ihh]

/-- The first line of a newline-join whose first element is newline-free is
that first element, whatever the tail holds. -/
theorem linesOf_joinLines_head (p : String) (rest : List String) (h : '\n' ∉ p.data) :
    (linesOf (joinLines (p :: rest))).head? = some p := by
  cases rest with
  | nil =>
    rw [show joinLines [p] = p from rfl, linesOf_single p h]
    rfl
  | cons b rs =>
    have hdata : (joinLines (p :: b :: rs)).data
        = p.data ++ '\n' :: (joinLines (b :: rs)).data := by
      rw [joinLines_cons₂, String.data_append, String.data_append]
      simp
    unfold linesOf List.splitOn
    rw [hdata, List.splitOnP_first _ _ (fun x hx hb => h (by
      rw [show x = '\n' from by simpa using hb] at hx
      exact hx)) '\n' (by simp) _]
    simp

/- Newline-freedom of every rendered fragment. -/

theorem digitChar_ne_nl (n : Nat) : digitChar n ≠ '\n' := by
  unfold digitChar
  split_ifs <;> decide

theorem natDigitsRec_nl (fuel n : Nat) : '\n' ∉ natDigitsRec fuel n := by
  induction fuel generalizing n with
  | zero => simp [natDigitsRec]
  | succ f ih =>
    cases n with
    | zero => simp [natDigitsRec]
    | succ m =>
      intro hmem
      rw [natDigitsRec] at hmem
      rcases List.mem_append.mp hmem with hm | hm
      · exact ih _ hm
      · exact digitChar_ne_nl _ (List.mem_singleton.mp hm).symm

theorem natRepr_nl (n : Nat) : '\n' ∉ (natRepr n).data := by
  unfold natRepr
  split_ifs
  · decide
  · exact natDigitsRec_nl n n

theorem nl_notin_append {a b : String} (ha : '\n' ∉ a.data) (hb : '\n' ∉ b.data) :
    '\n' ∉ (a ++ b).data := by
  rw [String.data_append]
  intro hm
  rcases List.mem_append.mp hm with hm | hm
  · exact ha hm
  · exact hb hm

theorem pad4_nl (m : Nat) : '\n' ∉ (pad4 m).data := by
  unfold pad4
  refine nl_notin_append ?_ (natRepr_nl m)
  intro hm
  have := List.eq_of_mem_replicate hm
  exact absurd this (by decide)

theorem jsNumStr_nl (q : ℚ) : '\n' ∉ (jsNumStr q).data := by
  unfold jsNumStr
  split_ifs <;>
    refine nl_notin_append (nl_notin_append (by decide) (natRepr_nl _)) ?_ <;>
    first
      | decide
      | exact nl_notin_append (by decide) (natRepr_nl _)

theorem toFixed4_nl (q : ℚ) : '\n' ∉ (toFixed4 q).data := by
  unfold toFixed4
  split_ifs <;>
    exact nl_notin_append
      (nl_notin_append (nl_notin_append (by decide) (natRepr_nl _)) (by decide))
      (pad4_nl _)

theorem locOf_nl (lat lon : ℚ) (placeName : Option String)
    (hp : ∀ s, placeName = some s → '\n' ∉ s.data) :
    '\n' ∉ (locOf lat lon placeName).data := by
  unfold locOf
  have hgd : '\n' ∉ (placeName.getD "").data := by
    cases placeName with
    | none => decide
    | some s => exact hp s rfl
  split_ifs <;>
    simp only [String.data_append, List.mem_append, not_or] <;>
    (repeat' apply And.intro) <;>
    first
      | decide
      | exact hgd
      | exact toFixed4_nl lat
      | exact toFixed4_nl lon

theorem headerLine_nl (lat lon : ℚ) (placeName : Option String)
    (hp : ∀ s, placeName = some s → '\n' ∉ s.data) :
    '\n' ∉ (headerLine lat lon placeName).data := by
  unfold headerLine
  exact nl_notin_append (by decide) (locOf_nl lat lon placeName hp)

theorem jsIdxS_nl (l : List String) (i : Nat) (h : ∀ s ∈ l, '\n' ∉ s.data) :
    '\n' ∉ (jsIdxS l i).data := by
  unfold jsIdxS
  cases hg : l.get? i with
  | none => decide
  | some s => exact h s (List.get?_mem hg)

theorem jsIdxQ_nl (l : List ℚ) (i : Nat) : '\n' ∉ (jsIdxQ l i).data := by
  unfold jsIdxQ
  cases hg : l.get? i with
  | none => decide
  | some q => exact jsNumStr_nl q

theorem dailyLine_nl (dates : List String) (minTemps maxTemps precip : List ℚ) (i : Nat)
    (h : ∀ s ∈ dates, '\n' ∉ s.data) :
    '\n' ∉ (dailyLine dates minTemps maxTemps precip i).data := by
  unfold dailyLine
  simp only [String.data_append, List.mem_append, not_or]
  repeat' apply And.intro
  all_goals
    first
      | decide
      | exact jsIdxS_nl dates i h
      | exact jsIdxQ_nl minTemps i
      | exact jsIdxQ_nl maxTemps i
      | exact jsIdxQ_nl precip i

theorem currentFlat_nl (cw : Option CurrentWeather)
    (hc : ∀ cur, cw = some cur → '\n' ∉ cur.time.data) :
    ∀ p ∈ currentFlat cw, '\n' ∉ p.data := by
  cases cw with
  | none =>
    intro p hp
    simp only [currentFlat, List.mem_singleton] at hp
    rw [hp]
    decide
  | some cur =>
    intro p hp
    simp only [currentFlat, List.mem_cons, List.not_mem_nil, or_false] at hp
    rcases hp with hp | hp | hp | hp | hp <;>
      rw [hp] <;>
      simp only [String.data_append, List.mem_append, not_or] <;>
      (repeat' apply And.intro) <;>
      first
        | decide
        | exact jsNumStr_nl _
        | exact hc cur rfl

theorem dailyFlat_nl (dly : Option Daily)
    (hd : ∀ d, dly = some d → ∀ s ∈ d.time.getD [], '\n' ∉ s.data) :
    ∀ p ∈ dailyFlat dly, '\n' ∉ p.data := by
  cases dly with
  | none =>
    intro p hp
    simp [dailyFlat] at hp
  | some d =>
    intro p hp
    rw [dailyFlat] at hp
    by_cases hlen : 0 < (d.time.getD []).length
    · rw [if_pos hlen] at hp
      simp only [List.mem_cons] at hp
      rcases hp with hp | hp | hp
      · rw [hp]; decide
      · rw [hp]; decide
      · rw [dailyRendered] at hp
        rcases List.mem_map.mp hp with ⟨i, _, hi⟩
        rw [← hi]
        exact dailyLine_nl _ _ _ _ i (hd d rfl)
    · rw [if_neg hlen] at hp
      simp at hp

/-- Line-level description of the formatter output: splitting the output on
newlines yields the header line, the flat current-conditions section and the
flat daily section, provided the free-text inputs are newline-free. -/
theorem linesOf_format (lat lon : ℚ) (data : OpenMeteoForecast) (placeName : Option String)
    (hp : ∀ s, placeName = some s → '\n' ∉ s.data)
    (hc : ∀ cur, data.current_weather = some cur → '\n' ∉ cur.time.data)
    (hd : ∀ d, data.daily = some d → ∀ s ∈ d.time.getD [], '\n' ∉ s.data) :
    linesOf (formatForecastText lat lon data placeName)
      = headerLine lat lon placeName
        :: (currentFlat data.current_weather ++ dailyFlat data.daily) := by
  rw [formatForecastText_flat]
  apply linesOf_joinLines
  · simp
  · intro p hmem
    rcases List.mem_cons.mp hmem with hm | hm
    · rw [hm]
      exact headerLine_nl lat lon placeName hp
    · rcases List.mem_append.mp hm with hm | hm
      · exact currentFlat_nl _ hc p hm
      · exact dailyFlat_nl _ hd p hm

/-- Two strings differ when their character lists differ at some index. -/
theorem String.ne_of_get_ne (x y : String) (i : Nat) (h : x.data.get? i ≠ y.data.get? i) :
    x ≠ y :=
  fun e => h (by rw [e])

/-- Two strings differ when their final characters differ. -/
theorem String.ne_of_getLast_ne (x y : String) (h : x.data.getLast? ≠ y.data.getLast?) :
    x ≠ y :=
  fun e => h (by rw [e])

/-- The first character of an appended string is the first character of its
first part. -/
theorem data_get_zero_append (x y : String) (c : Char) (h : x.data.get? 0 = some c) :
    (x ++ y).data.get? 0 = some c := by
  cases hx : x.data with
  | nil =>
    rw [hx] at h
    simp at h
  | cons a l =>
    rw [hx] at h
    rw [String.data_append, hx, List.cons_append]
    simpa using h

/-- A daily summary line always ends in the millimetre unit. -/
theorem dailyLine_getLast (dates : List String) (minTemps maxTemps precip : List ℚ) (i : Nat) :
    (dailyLine dates minTemps maxTemps precip i).data.getLast? = some 'м' := by
  unfold dailyLine
  rw [String.data_append, List.getLast?_append_of_ne_nil _ (by decide)]
  decide

/-- The header line starts with the forecast label, so its second character is
the Cyrillic letter `р`. -/
theorem headerLine_get_one (lat lon : ℚ) (placeName : Option String) :
    (headerLine lat lon placeName).data.get? 1 = some 'р' := by
  unfold headerLine
  rw [show T.forecastFor ++ " " ++ locOf lat lon placeName
      = (T.forecastFor ++ " ") ++ locOf lat lon placeName from rfl]
  rw [String.data_append, List.get?_append (by decide)]
  decide

/-- C1: when the geocoder is consulted (coordinates not both truthy, city
truthy) and yields no result, the handler answers with the localized
city-not-found message, the geocoder was called, and the forecast fetcher is
never invoked (no forecast query is built). -/
theorem get_forecast_city_not_found (args : Args) (geoFetch : Option GeocodingResult)
    (fc : Option OpenMeteoForecast)
    (hcoords : (truthyNum args.latitude && truthyNum args.longitude) = false)
    (hcity : truthyStr args.city = true)
    (hgeo : geocodeCity geoFetch = none) :
    (getForecastHandler args geoFetch fc).response.text
        = T.failed ++ ": не знайдено місто \x27" ++ args.city.getD "" ++ "\x27"
      ∧ (getForecastHandler args geoFetch fc).forecastQuery = none
      ∧ (getForecastHandler args geoFetch fc).geocoderCalled = true := by
  cases h1 : truthyNum args.latitude <;> cases h2 : truthyNum args.longitude <;>
    simp_all [getForecastHandler]

/-- C1 witness: a concrete run with an unknown city and an empty geocoding
result array returns the not-found text and no forecast query. -/
theorem get_forecast_city_not_found_witness :
    (truthyNum (none : Option ℚ) && truthyNum (none : Option ℚ)) = false
    ∧ truthyStr (some "Atlantis") = true
    ∧ geocodeCity (some ⟨some []⟩) = none
    ∧ ((getForecastHandler ⟨some "Atlantis", none, none⟩ (some ⟨some []⟩) none).response.text
          = T.failed ++ ": не знайдено місто \x27" ++ (some "Atlantis" : Option String).getD "" ++ "\x27"
        ∧ (getForecastHandler ⟨some "Atlantis", none, none⟩ (some ⟨some []⟩) none).forecastQuery = none
        ∧ (getForecastHandler ⟨some "Atlantis", none, none⟩ (some ⟨some []⟩) none).geocoderCalled = true) :=
  ⟨by decide, by decide, by decide,
    get_forecast_city_not_found ⟨some "Atlantis", none, none⟩ (some ⟨some []⟩) none
      (by decide) (by decide) (by decide)⟩

/-- C2: the handler resolves coordinates through three ordered branches —
both coordinates truthy: used as-is without geocoding; otherwise a truthy
city: the geocoder is consulted and its hit supplies the coordinates;
otherwise: the Kyiv defaults.  A coordinate that is exactly 0 is falsy. -/
theorem get_forecast_resolution_branches (args : Args) (geoFetch : Option GeocodingResult)
    (fc : Option OpenMeteoForecast) :
    ((truthyNum args.latitude && truthyNum args.longitude) = true →
      (getForecastHandler args geoFetch fc).forecastQuery
          = some (mkForecastQuery (args.latitude.getD 0) (args.longitude.getD 0))
      ∧ (getForecastHandler args geoFetch fc).geocoderCalled = false)
    ∧ ((truthyNum args.latitude && truthyNum args.longitude) = false →
        truthyStr args.city = true →
      (getForecastHandler args geoFetch fc).geocoderCalled = true
      ∧ ∀ g, geocodeCity geoFetch = some g →
          (getForecastHandler args geoFetch fc).forecastQuery
            = some (mkForecastQuery g.latitude g.longitude))
    ∧ ((truthyNum args.latitude && truthyNum args.longitude) = false →
        truthyStr args.city = false →
      (getForecastHandler args geoFetch fc).forecastQuery
          = some (mkForecastQuery DEFAULT_LATITUDE DEFAULT_LONGITUDE)
      ∧ (getForecastHandler args geoFetch fc).geocoderCalled = false)
    ∧ truthyNum (some 0) = false := by
  refine ⟨?_, ?_, ?_, by decide⟩ <;>
    cases h1 : truthyNum args.latitude <;> cases h2 : truthyNum args.longitude <;>
    cases hg : geocodeCity geoFetch <;> cases fc <;>
    simp_all [getForecastHandler, finishForecast]

/-- C2 witness: with latitude exactly 0 and a longitude given but no city,
the zero coordinate is treated as absent and the Kyiv default is used. -/
theorem get_forecast_resolution_branches_witness :
    (truthyNum (some 0) && truthyNum (some 5)) = false
    ∧ truthyStr (none : Option String) = false
    ∧ ((getForecastHandler ⟨none, some 0, some 5⟩ none none).forecastQuery
          = some (mkForecastQuery DEFAULT_LATITUDE DEFAULT_LONGITUDE)
        ∧ (getForecastHandler ⟨none, some 0, some 5⟩ none none).geocoderCalled = false) :=
  ⟨by decide, by decide,
    (get_forecast_resolution_branches ⟨none, some 0, some 5⟩ none none).2.2.1
      (by decide) (by decide)⟩

/-- C3: with city, latitude and longitude all omitted the handler queries the
forecast at the Kyiv defaults (50.4501, 30.5234), formats with the display
name Kyiv, and the defaults render to the expected 4-decimal strings. -/
theorem get_forecast_default_kyiv (geoFetch : Option GeocodingResult)
    (fc : Option OpenMeteoForecast) :
    (getForecastHandler ⟨none, none, none⟩ geoFetch fc).forecastQuery
        = some (mkForecastQuery DEFAULT_LATITUDE DEFAULT_LONGITUDE)
    ∧ (∀ data, fc = some data →
        (getForecastHandler ⟨none, none, none⟩ geoFetch fc).response.text
          = formatForecastText DEFAULT_LATITUDE DEFAULT_LONGITUDE data (some "Kyiv"))
    ∧ DEFAULT_LATITUDE = 50.4501 ∧ DEFAULT_LONGITUDE = 30.5234
    ∧ toFixed4 DEFAULT_LATITUDE = "50.4501" ∧ toFixed4 DEFAULT_LONGITUDE = "30.5234" := by
  have hlat : DEFAULT_LATITUDE = mkRat 504501 10000 := by
    norm_num [DEFAULT_LATITUDE]
  have hlon : DEFAULT_LONGITUDE = mkRat 305234 10000 := by
    norm_num [DEFAULT_LONGITUDE]
  refine ⟨?_, ?_, rfl, rfl, ?_, ?_⟩
  · cases fc <;> simp [getForecastHandler, finishForecast, truthyNum, truthyStr]
  · intro data hdata
    subst hdata
    simp [getForecastHandler, finishForecast, truthyNum, truthyStr]
  · rw [hlat]
    decide
  · rw [hlon]
    decide

/-- C3 witness: a concrete all-defaults run formats the payload for Kyiv. -/
theorem get_forecast_default_kyiv_witness :
    (some (⟨50, 30, none, none⟩ : OpenMeteoForecast)
        = some (⟨50, 30, none, none⟩ : OpenMeteoForecast))
    ∧ (getForecastHandler ⟨none, none, none⟩ none (some ⟨50, 30, none, none⟩)).response.text
        = formatForecastText DEFAULT_LATITUDE DEFAULT_LONGITUDE ⟨50, 30, none, none⟩ (some "Kyiv") :=
  ⟨rfl, (get_forecast_default_kyiv none (some ⟨50, 30, none, none⟩)).2.1 ⟨50, 30, none, none⟩ rfl⟩

/-- C8: the handler always returns a normal result (the error flag is never
set; in the embedding the handler is a total function, so no exception can
escape it), and when the forecast fetch yields the null sentinel on a path
that reaches the fetch, the text is the localized generic failure message. -/
theorem get_forecast_never_error (args : Args) (geoFetch : Option GeocodingResult)
    (fc : Option OpenMeteoForecast) :
    (getForecastHandler args geoFetch fc).response.isError = false
    ∧ ((getForecastHandler args geoFetch none).forecastQuery.isSome = true →
        (getForecastHandler args geoFetch none).response.text
          = T.failed ++ ": помилка при отриманні даних") := by
  constructor <;>
    cases h1 : truthyNum args.latitude <;> cases h2 : truthyNum args.longitude <;>
    cases h3 : truthyStr args.city <;> cases hg : geocodeCity geoFetch <;> cases fc <;>
    simp_all [getForecastHandler, finishForecast]

/-- C8 witness: a concrete run whose forecast fetch fails yields the generic
failure text with the error flag unset. -/
theorem get_forecast_never_error_witness :
    (getForecastHandler ⟨none, none, none⟩ none none).response.isError = false
    ∧ ((getForecastHandler ⟨none, none, none⟩ none none).forecastQuery.isSome = true
        ∧ (getForecastHandler ⟨none, none, none⟩ none none).response.text
            = T.failed ++ ": помилка при отриманні даних") :=
  ⟨(get_forecast_never_error ⟨none, none, none⟩ none none).1,
    by decide,
    (get_forecast_never_error ⟨none, none, none⟩ none none).2 (by decide)⟩

/-- C9: when exactly one coordinate is provided and truthy and no truthy city
is given, the provided coordinate is discarded entirely: the forecast query
uses both Kyiv defaults and no geocoding happens. -/
theorem get_forecast_one_sided_coordinate (args : Args) (geoFetch : Option GeocodingResult)
    (fc : Option OpenMeteoForecast)
    (hcity : truthyStr args.city = false)
    (hone : (truthyNum args.latitude = true ∧ truthyNum args.longitude = false)
          ∨ (truthyNum args.latitude = false ∧ truthyNum args.longitude = true)) :
    (getForecastHandler args geoFetch fc).forecastQuery
        = some (mkForecastQuery DEFAULT_LATITUDE DEFAULT_LONGITUDE)
    ∧ (getForecastHandler args geoFetch fc).geocoderCalled = false := by
  rcases hone with ⟨h1, h2⟩ | ⟨h1, h2⟩ <;> cases fc <;>
    simp_all [getForecastHandler, finishForecast]

/-- C9 witness: latitude 12 with no longitude and no city resolves to the
Kyiv default query. -/
theorem get_forecast_one_sided_coordinate_witness :
    truthyStr (none : Option String) = false
    ∧ (truthyNum (some 12) = true ∧ truthyNum (none : Option ℚ) = false)
    ∧ ((getForecastHandler ⟨none, some 12, none⟩ none none).forecastQuery
          = some (mkForecastQuery DEFAULT_LATITUDE DEFAULT_LONGITUDE)
        ∧ (getForecastHandler ⟨none, some 12, none⟩ none none).geocoderCalled = false) :=
  ⟨by decide, ⟨by decide, by decide⟩,
    get_forecast_one_sided_coordinate ⟨none, some 12, none⟩ none none (by decide)
      (Or.inl ⟨by decide, by decide⟩)⟩

/-- C4: for a payload with current conditions and a 7-entry daily series
(and newline-free text fields), the output split on newlines is exactly the
header line, a blank-prefixed current-conditions block of a sub-header and
three data lines, a blank-prefixed daily header, and min(7, series length)
= 7 daily lines. -/
theorem formatter_full_payload_lines (lat lon : ℚ) (data : OpenMeteoForecast)
    (placeName : Option String) (cur : CurrentWeather) (d : Daily) (dates : List String)
    (hcw : data.current_weather = some cur)
    (hdy : data.daily = some d)
    (hdt : d.time = some dates)
    (hlen : dates.length = 7)
    (hp : ∀ s, placeName = some s → '\n' ∉ s.data)
    (hct : '\n' ∉ cur.time.data)
    (hds : ∀ s ∈ dates, '\n' ∉ s.data) :
    linesOf (formatForecastText lat lon data placeName)
      = headerLine lat lon placeName :: "" :: (T.current ++ ":")
          :: (T.temperature ++ ": " ++ jsNumStr cur.temperature ++ " °C")
          :: (T.wind ++ ": " ++ jsNumStr cur.windspeed ++ " km/h (" ++ jsNumStr cur.winddirection ++ "°)")
          :: ("Час: " ++ cur.time)
          :: "" :: "Денний прогноз:" :: dailyRendered d
      ∧ (dailyRendered d).length = min 7 dates.length
      ∧ (dailyRendered d).length = 7 := by
  have hmaster := linesOf_format lat lon data placeName hp
    (fun c hc => by rw [hcw] at hc; cases hc; exact hct)
    (fun dd hdd => by rw [hdy] at hdd; cases hdd; rw [hdt]; simpa using hds)
  have hlen7 : (dailyRendered d).length = 7 := by
    simp [dailyRendered, hdt, hlen]
  refine ⟨?_, ?_, hlen7⟩
  · rw [hmaster, hcw, hdy]
    simp [currentFlat, dailyFlat, hdt, hlen]
  · rw [hlen7, hlen]
    simp

/-- C4 witness: a concrete payload with current conditions and seven dates
renders the expected 15 lines, seven of them daily lines. -/
theorem formatter_full_payload_lines_witness :
    (["d1", "d2", "d3", "d4", "d5", "d6", "d7"] : List String).length = 7
    ∧ (linesOf (formatForecastText 1 2
        ⟨1, 2, some ⟨5, 10, 180, 3, "2024-05-01T00:00"⟩,
          some ⟨some ["d1", "d2", "d3", "d4", "d5", "d6", "d7"],
            some [7, 7, 7, 7, 7, 7, 7], some [1, 1, 1, 1, 1, 1, 1],
            some [0, 0, 0, 0, 0, 0, 0]⟩⟩ none)).length = 15 := by
  have h := formatter_full_payload_lines 1 2
    ⟨1, 2, some ⟨5, 10, 180, 3, "2024-05-01T00:00"⟩,
      some ⟨some ["d1", "d2", "d3", "d4", "d5", "d6", "d7"],
        some [7, 7, 7, 7, 7, 7, 7], some [1, 1, 1, 1, 1, 1, 1],
        some [0, 0, 0, 0, 0, 0, 0]⟩⟩ none
    ⟨5, 10, 180, 3, "2024-05-01T00:00"⟩
    ⟨some ["d1", "d2", "d3", "d4", "d5", "d6", "d7"],
      some [7, 7, 7, 7, 7, 7, 7], some [1, 1, 1, 1, 1, 1, 1],
      some [0, 0, 0, 0, 0, 0, 0]⟩
    ["d1", "d2", "d3", "d4", "d5", "d6", "d7"]
    rfl rfl rfl (by decide) (fun s hs => nomatch hs) (by decide) (by decide)
  refine ⟨by decide, ?_⟩
  rw [h.1]
  simp [h.2.2]

/-- C6: the number of rendered daily lines is min(series length, 7): exactly
n lines when the series has 0 < n < 7 entries, and exactly 7 when n ≥ 7. -/
theorem formatter_daily_truncation (lat lon : ℚ) (data : OpenMeteoForecast)
    (placeName : Option String) (d : Daily) (dates : List String)
    (hdy : data.daily = some d)
    (hdt : d.time = some dates)
    (hpos : 0 < dates.length)
    (hp : ∀ s, placeName = some s → '\n' ∉ s.data)
    (hc : ∀ cur, data.current_weather = some cur → '\n' ∉ cur.time.data)
    (hds : ∀ s ∈ dates, '\n' ∉ s.data) :
    linesOf (formatForecastText lat lon data placeName)
      = (headerLine lat lon placeName :: currentFlat data.current_weather)
          ++ ("" :: "Денний прогноз:" :: dailyRendered d)
    ∧ (dailyRendered d).length = min dates.length 7
    ∧ (dates.length < 7 → (dailyRendered d).length = dates.length)
    ∧ (7 ≤ dates.length → (dailyRendered d).length = 7) := by
  have hmaster := linesOf_format lat lon data placeName hp hc
    (fun dd hdd => by rw [hdy] at hdd; cases hdd; rw [hdt]; simpa using hds)
  have hmin : (dailyRendered d).length = min dates.length 7 := by
    simp [dailyRendered, hdt]
  refine ⟨?_, hmin, ?_, ?_⟩
  · rw [hmaster, hdy]
    simp [dailyFlat, hdt, hpos]
  · intro hlt
    rw [hmin]
    omega
  · intro hge
    rw [hmin]
    omega

/-- C6 witness: a 3-entry daily series renders exactly 3 daily lines. -/
theorem formatter_daily_truncation_witness :
    (0 < (["d1", "d2", "d3"] : List String).length
        ∧ (["d1", "d2", "d3"] : List String).length < 7)
    ∧ (dailyRendered ⟨some ["d1", "d2", "d3"], some [7, 7, 7], some [1, 1, 1],
        some [0, 0, 0]⟩).length = 3 := by
  have h := formatter_daily_truncation 1 2
    ⟨1, 2, none, some ⟨some ["d1", "d2", "d3"], some [7, 7, 7], some [1, 1, 1], some [0, 0, 0]⟩⟩
    none
    ⟨some ["d1", "d2", "d3"], some [7, 7, 7], some [1, 1, 1], some [0, 0, 0]⟩
    ["d1", "d2", "d3"]
    rfl rfl (by decide) (fun s hs => nomatch hs) (fun c hc => nomatch hc) (by decide)
  exact ⟨⟨by decide, by decide⟩, h.2.2.1 (by decide)⟩

/-- C7: with no current-conditions record, the output is the header, the
single no-data line and the daily section only — in particular the
current-conditions sub-header never appears; with no daily record, the
output is the header and the current section only — no daily header
appears. -/
theorem formatter_missing_sections (lat lon : ℚ) (data : OpenMeteoForecast)
    (placeName : Option String)
    (hp : ∀ s, placeName = some s → '\n' ∉ s.data)
    (hc : ∀ cur, data.current_weather = some cur → '\n' ∉ cur.time.data)
    (hd : ∀ d, data.daily = some d → ∀ s ∈ d.time.getD [], '\n' ∉ s.data) :
    (data.current_weather = none →
      linesOf (formatForecastText lat lon data placeName)
          = headerLine lat lon placeName :: T.noData :: dailyFlat data.daily
        ∧ T.noData ∈ linesOf (formatForecastText lat lon data placeName)
        ∧ (T.current ++ ":") ∉ linesOf (formatForecastText lat lon data placeName))
    ∧ (data.daily = none →
      linesOf (formatForecastText lat lon data placeName)
          = headerLine lat lon placeName :: currentFlat data.current_weather
        ∧ "Денний прогноз:" ∉ linesOf (formatForecastText lat lon data placeName)) := by
  have hmaster := linesOf_format lat lon data placeName hp hc hd
  constructor
  · intro hcw
    have hlist : linesOf (formatForecastText lat lon data placeName)
        = headerLine lat lon placeName :: T.noData :: dailyFlat data.daily := by
      rw [hmaster, hcw]
      simp [currentFlat]
    refine ⟨hlist, by rw [hlist]; simp, ?_⟩
    rw [hlist]
    intro hmem
    rcases List.mem_cons.mp hmem with hm | hm
    · exact String.ne_of_get_ne _ _ 1
        (by rw [headerLine_get_one]; decide) hm.symm
    rcases List.mem_cons.mp hm with hm | hm
    · exact absurd hm (by decide)
    cases hdly : data.daily with
    | none => rw [hdly] at hm; simp [dailyFlat] at hm
    | some d =>
      rw [hdly] at hm
      rw [dailyFlat] at hm
      by_cases hlen : 0 < (d.time.getD []).length
      · rw [if_pos hlen] at hm
        rcases List.mem_cons.mp hm with hm | hm
        · exact absurd hm (by decide)
        rcases List.mem_cons.mp hm with hm | hm
        · exact absurd hm (by decide)
        rw [dailyRendered] at hm
        rcases List.mem_map.mp hm with ⟨i, _, hi⟩
        exact String.ne_of_getLast_ne _ _
          (by rw [dailyLine_getLast]; decide) hi
      · rw [if_neg hlen] at hm
        simp at hm
  · intro hdly
    have hlist : linesOf (formatForecastText lat lon data placeName)
        = headerLine lat lon placeName :: currentFlat data.current_weather := by
      rw [hmaster, hdly]
      simp [dailyFlat]
    refine ⟨hlist, ?_⟩
    rw [hlist]
    intro hmem
    rcases List.mem_cons.mp hmem with hm | hm
    · exact String.ne_of_get_ne _ _ 1
        (by rw [headerLine_get_one]; decide) hm.symm
    cases hcw : data.current_weather with
    | none =>
      rw [hcw] at hm
      simp only [currentFlat, List.mem_singleton] at hm
      exact absurd hm (by decide)
    | some cur =>
      rw [hcw] at hm
      simp only [currentFlat, List.mem_cons, List.not_mem_nil, or_false] at hm
      rcases hm with hm | hm | hm | hm | hm
      · exact absurd hm (by decide)
      · exact absurd hm (by decide)
      · exact String.ne_of_get_ne _ _ 0
          (by
            rw [show T.temperature ++ ": " ++ jsNumStr cur.temperature ++ " °C"
                = ((T.temperature ++ ": ") ++ jsNumStr cur.temperature) ++ " °C" from rfl,
              data_get_zero_append _ _ 'Т' (data_get_zero_append _ _ 'Т' (by decide))]
            decide) hm.symm
      · exact String.ne_of_get_ne _ _ 0
          (by
            rw [show T.wind ++ ": " ++ jsNumStr cur.windspeed ++ " km/h ("
                  ++ jsNumStr cur.winddirection ++ "°)"
                = ((((T.wind ++ ": ") ++ jsNumStr cur.windspeed) ++ " km/h (")
                    ++ jsNumStr cur.winddirection) ++ "°)" from rfl,
              data_get_zero_append _ _ 'В'
                (data_get_zero_append _ _ 'В'
                  (data_get_zero_append _ _ 'В'
                    (data_get_zero_append _ _ 'В' (by decide))))]
            decide) hm.symm
      · exact String.ne_of_get_ne _ _ 0
          (by
            rw [data_get_zero_append _ _ 'Ч' (by decide)]
            decide) hm.symm

/-- C7 witness: a payload with neither section renders only the header and
the no-data line, and no daily header appears. -/
theorem formatter_missing_sections_witness :
    ((⟨1, 2, none, none⟩ : OpenMeteoForecast).current_weather = none
        ∧ (⟨1, 2, none, none⟩ : OpenMeteoForecast).daily = none)
    ∧ linesOf (formatForecastText 1 2 ⟨1, 2, none, none⟩ none)
        = [headerLine 1 2 none, T.noData]
    ∧ "Денний прогноз:" ∉ linesOf (formatForecastText 1 2 ⟨1, 2, none, none⟩ none) := by
  have h := formatter_missing_sections 1 2 ⟨1, 2, none, none⟩ none
    (fun s hs => nomatch hs) (fun c hc => nomatch hc) (fun d hd => nomatch hd)
  exact ⟨⟨rfl, rfl⟩, by simpa [dailyFlat] using (h.1 rfl).1, (h.2 rfl).2⟩

/-- C10: the formatter always yields non-empty text whose first line is the
header, and the no-data line does not suppress the daily section: a missing
current-conditions record combined with a non-empty daily series still
renders the daily header. -/
theorem formatter_header_always (lat lon : ℚ) (data : OpenMeteoForecast)
    (placeName : Option String)
    (hp : ∀ s, placeName = some s → '\n' ∉ s.data) :
    formatForecastText lat lon data placeName ≠ ""
    ∧ (linesOf (formatForecastText lat lon data placeName)).head?
        = some (headerLine lat lon placeName)
    ∧ (data.current_weather = none → ∀ d, data.daily = some d →
        (∀ s ∈ d.time.getD [], '\n' ∉ s.data) → 0 < (d.time.getD []).length →
        "Денний прогноз:" ∈ linesOf (formatForecastText lat lon data placeName)) := by
  have hflat := formatForecastText_flat lat lon data placeName
  obtain ⟨b, rest, hbr⟩ :
      ∃ b rest, currentFlat data.current_weather ++ dailyFlat data.daily = b :: rest := by
    cases data.current_weather <;> simp [currentFlat]
  refine ⟨?_, ?_, ?_⟩
  · rw [hflat, hbr]
    intro hempty
    have hdata := congrArg String.data hempty
    rw [joinLines_cons₂, String.data_append, String.data_append] at hdata
    simp at hdata
  · rw [hflat, hbr]
    exact linesOf_joinLines_head _ _ (headerLine_nl lat lon placeName hp)
  · intro hcw d hdy hds hpos
    have hmaster := linesOf_format lat lon data placeName hp
      (fun c hc => by rw [hcw] at hc; exact nomatch hc)
      (fun dd hdd => by rw [hdy] at hdd; cases hdd; exact hds)
    rw [hmaster, hdy]
    simp [dailyFlat, hpos]

/-- C10 witness: a payload with neither section yields non-empty text headed
by the header line, and a payload with only a daily series still renders the
daily header. -/
theorem formatter_header_always_witness :
    (formatForecastText 1 2 ⟨1, 2, none, none⟩ none ≠ ""
      ∧ (linesOf (formatForecastText 1 2 ⟨1, 2, none, none⟩ none)).head?
          = some (headerLine 1 2 none))
    ∧ "Денний прогноз:" ∈ linesOf (formatForecastText 1 2
        ⟨1, 2, none, some ⟨some ["d1"], some [7], some [1], some [0]⟩⟩ none) := by
  have h1 := formatter_header_always 1 2 ⟨1, 2, none, none⟩ none (fun s hs => nomatch hs)
  have h2 := formatter_header_always 1 2
    ⟨1, 2, none, some ⟨some ["d1"], some [7], some [1], some [0]⟩⟩ none
    (fun s hs => nomatch hs)
  exact ⟨⟨h1.1, h1.2.1⟩,
    h2.2.2 rfl ⟨some ["d1"], some [7], some [1], some [0]⟩ rfl (by decide) (by decide)⟩

/-- C5 counterexample: with a present-but-empty display name the first line
is the bare-coordinates form, not a form carrying the display name, so
"display name when present, otherwise coordinates" fails for `some ""`. -/
theorem header_line_empty_name_cex :
    (linesOf (formatForecastText 1 2 ⟨1, 2, none, none⟩ (some ""))).head?
        = some (T.forecastFor ++ " " ++ (toFixed4 1 ++ ", " ++ toFixed4 2))
    ∧ T.forecastFor ++ " " ++ (toFixed4 1 ++ ", " ++ toFixed4 2)
        ≠ T.forecastFor ++ " " ++ ""
    ∧ T.forecastFor ++ " " ++ (toFixed4 1 ++ ", " ++ toFixed4 2)
        ≠ T.forecastFor ++ " " ++ ("" ++ " (" ++ toFixed4 1 ++ ", " ++ toFixed4 2 ++ ")") := by
  refine ⟨?_, by decide, by decide⟩
  decide

/-- C5 amended: the first output line is always the header label followed by
`locOf`: for a truthy (non-empty) display name, the name with the 4-decimal
coordinates in parentheses; otherwise the bare 4-decimal coordinates. -/
theorem header_line_characterization (lat lon : ℚ) (data : OpenMeteoForecast)
    (placeName : Option String)
    (hp : ∀ s, placeName = some s → '\n' ∉ s.data) :
    (linesOf (formatForecastText lat lon data placeName)).head?
        = some (T.forecastFor ++ " " ++ locOf lat lon placeName)
    ∧ (truthyStr placeName = true →
        locOf lat lon placeName
          = placeName.getD "" ++ " (" ++ toFixed4 lat ++ ", " ++ toFixed4 lon ++ ")")
    ∧ (truthyStr placeName = false →
        locOf lat lon placeName = toFixed4 lat ++ ", " ++ toFixed4 lon) := by
  have hflat := formatForecastText_flat lat lon data placeName
  obtain ⟨b, rest, hbr⟩ :
      ∃ b rest, currentFlat data.current_weather ++ dailyFlat data.daily = b :: rest := by
    cases data.current_weather <;> simp [currentFlat]
  refine ⟨?_, ?_, ?_⟩
  · rw [hflat, hbr]
    exact linesOf_joinLines_head _ _ (headerLine_nl lat lon placeName hp)
  · intro ht
    rw [locOf, if_pos ht]
  · intro hf
    rw [locOf, if_neg (by rw [hf]; exact Bool.false_ne_true)]

/-- C5 amended witness: with the display name Lviv the first line carries the
name and the parenthesized coordinates. -/
theorem header_line_characterization_witness :
    truthyStr (some "Lviv") = true
    ∧ ((linesOf (formatForecastText 1 2 ⟨1, 2, none, none⟩ (some "Lviv"))).head?
          = some (T.forecastFor ++ " " ++ locOf 1 2 (some "Lviv"))
        ∧ locOf 1 2 (some "Lviv")
            = (some "Lviv" : Option String).getD "" ++ " (" ++ toFixed4 1 ++ ", " ++ toFixed4 2 ++ ")") := by
  have h := header_line_characterization 1 2 ⟨1, 2, none, none⟩ (some "Lviv")
    (fun s hs => by cases hs; decide)
  exact ⟨by decide, h.1, h.2.1 (by decide)⟩

end WeatherUkraine
